import Mathlib

/-!
Verification of the KVR in-memory key-value HTTP service (src/server.js).

The JS value `const store = {}` is a plain JavaScript object used as a
dictionary.  We embed it as the list of its own enumerable string-keyed
properties in insertion order.  Two aspects of JavaScript object semantics
matter for the route handlers and are modelled explicitly:

* the `in` operator used by the GET handler sees not only own properties
  but also the properties every plain object inherits from
  `Object.prototype` (such as `toString`);
* the assignment `store[key] = value` performed by the PUT handler does
  not create an own property when `key` is `__proto__`: it invokes the
  inherited `__proto__` accessor, whose setter ignores a string value.

Each route handler becomes a function from the store and its request
parameters to the pair of the updated store and the HTTP response.
-/

/-- The own enumerable string-valued properties of the JS object `store`,
in insertion order. -/
abbrev Store := List (String × String)

/-- Own-property read: the value stored under `key`, if the object has an
own property named `key` (JS objects have at most one property per name). -/
def lookupKey : Store → String → Option String
  | [], _ => none
  | (k, v) :: rest, key => if k = key then some v else lookupKey rest key

/-- The own property names of `Object.prototype`, inherited by every plain
object created by an object literal and therefore visible to the JS `in`
operator on `store`. -/
def objectPrototypeKeys : List String :=
  ["constructor", "hasOwnProperty", "isPrototypeOf", "propertyIsEnumerable",
   "toLocaleString", "toString", "valueOf", "__defineGetter__",
   "__defineSetter__", "__lookupGetter__", "__lookupSetter__", "__proto__"]

/-- The JS expression `key in store`: true when `key` is an own property of
`store` or a property inherited from `Object.prototype`. -/
def keyIn (key : String) (store : Store) : Bool :=
  (lookupKey store key).isSome || objectPrototypeKeys.contains key

/-- Creation or overwrite of the own data property `key` (ordinary JS
assignment semantics: an existing own property keeps its position, a new
one is appended in insertion order). -/
def setOwn : Store → String → String → Store
  | [], key, value => [(key, value)]
  | (k, v) :: rest, key, value =>
    if k = key then (key, value) :: rest else (k, v) :: setOwn rest key value

/-- The JS assignment `store[key] = value` of the PUT handler.  For the key
`__proto__` the assignment reaches the inherited accessor property
`Object.prototype.__proto__`, whose setter ignores a value that is neither
an object nor null, so a string value is silently discarded; every other
key becomes (or overwrites) an own data property, because all other
`Object.prototype` properties are writable data properties and do not
block own-property creation. -/
def setKey (store : Store) (key value : String) : Store :=
  if key = "__proto__" then store else setOwn store key value

/-- The JS statement `delete store[key]`: removes the own property named
`key` when present and is a no-op otherwise (inherited properties are not
affected). -/
def eraseKey : Store → String → Store
  | [], _ => []
  | (k, v) :: rest, key => if k = key then rest else (k, v) :: eraseKey rest key

/-- The JS expression `Object.keys(store)`: the own enumerable property
names, in insertion order. -/
def objectKeys (store : Store) : List String := store.map Prod.fst

/-- A response body: `res.send` with the stored string value, or
`res.json` with a flat object whose values are strings. -/
inductive Body where
  | text (s : String)
  | json (fields : List (String × String))
  deriving DecidableEq

/-- An HTTP response produced by a handler: a 200 response carrying a
body, the 404 response produced by `res.status(404).json(...)`, or the
result of handing `res.send` a member inherited from `Object.prototype`
(a function, or the prototype object itself for `__proto__`) — whatever
the transport does with that non-string argument, it is not the 404
branch of the GET handler. -/
inductive Response where
  | ok (body : Body)
  | notFound (body : Body)
  | sendInherited (key : String)
  deriving DecidableEq

/-- The fixed 404 response of the GET handler. -/
def notFoundResponse : Response :=
  Response.notFound (Body.json [("error", "Key not found")])

namespace KVR

/-- The GET `/:key` handler: when `!(key in store)` respond 404 with the
fixed JSON error body, otherwise `res.send(store[key])` — the own value
when one exists, else the member inherited from `Object.prototype`. -/
def get (store : Store) (key : String) : Store × Response :=
  if !(keyIn key store) then
    (store, notFoundResponse)
  else
    match lookupKey store key with
    | some v => (store, Response.ok (Body.text v))
    | none => (store, Response.sendInherited key)

/-- The PUT `/:key` handler: `store[key] = req.body` then
`res.send(req.body)`. -/
def put (store : Store) (key value : String) : Store × Response :=
  (setKey store key value, Response.ok (Body.text value))

/-- The DELETE `/:key` handler: `delete store[key]` then
`res.json` of an object naming the key. -/
def delete (store : Store) (key : String) : Store × Response :=
  (eraseKey store key, Response.ok (Body.json [("deleted", key)]))

/-- The DELETE `/` handler: `Object.keys(store).forEach` deleting every
own key, then `res.json` of the fixed acknowledgment. -/
def delete_all (store : Store) : Store × Response :=
  ((objectKeys store).foldl eraseKey store,
   Response.ok (Body.json [("deleted", "all")]))

end KVR

/-- The value bound to `port`: the string taken from the environment, or
the number 3000. -/
inductive PortVal where
  | str (s : String)
  | num (n : Nat)
  deriving DecidableEq

/-- The line `const port = process.env.PORT || 3000`: the JS `||` operator
yields the right operand exactly when the left one is falsy, and an
environment variable value is falsy precisely when it is the empty string
(an unset variable reads as undefined, also falsy). -/
def port (envPORT : Option String) : PortVal :=
  match envPORT with
  | some s => if s = "" then PortVal.num 3000 else PortVal.str s
  | none => PortVal.num 3000

/-! Helper lemmas about the store operations. -/

theorem lookupKey_setOwn_other (s : Store) (k k' v : String) (h : k' ≠ k) :
    lookupKey (setOwn s k v) k' = lookupKey s k' := by
  induction s with
  | nil =>
    show (if k = k' then some v else lookupKey [] k') = lookupKey [] k'
    rw [if_neg (fun hc => h hc.symm)]
  | cons hd tl ih =>
    obtain ⟨k0, v0⟩ := hd
    show lookupKey (if k0 = k then (k, v) :: tl else (k0, v0) :: setOwn tl k v) k'
        = if k0 = k' then some v0 else lookupKey tl k'
    by_cases hk : k0 = k
    · rw [if_pos hk]
      show (if k = k' then some v else lookupKey tl k')
          = if k0 = k' then some v0 else lookupKey tl k'
      rw [if_neg (fun hc => h hc.symm), if_neg (fun hc => h (hc.symm.trans hk))]
    · rw [if_neg hk]
      show (if k0 = k' then some v0 else lookupKey (setOwn tl k v) k')
          = if k0 = k' then some v0 else lookupKey tl k'
      by_cases hk' : k0 = k'
      · rw [if_pos hk', if_pos hk']
      · rw [if_neg hk', if_neg hk', ih]

theorem lookupKey_eraseKey_other (s : Store) (k k' : String) (h : k' ≠ k) :
    lookupKey (eraseKey s k) k' = lookupKey s k' := by
  induction s with
  | nil => rfl
  | cons hd tl ih =>
    obtain ⟨k0, v0⟩ := hd
    show lookupKey (if k0 = k then tl else (k0, v0) :: eraseKey tl k) k'
        = if k0 = k' then some v0 else lookupKey tl k'
    by_cases hk : k0 = k
    · rw [if_pos hk, if_neg (fun hc => h (hc.symm.trans hk))]
    · rw [if_neg hk]
      show (if k0 = k' then some v0 else lookupKey (eraseKey tl k) k')
          = if k0 = k' then some v0 else lookupKey tl k'
      by_cases hk' : k0 = k'
      · rw [if_pos hk', if_pos hk']
      · rw [if_neg hk', if_neg hk', ih]

/-! Claim theorems. -/

/-- Claim C1: the round-trip `put(k, v); get(k) = v` fails on the code at
the key `__proto__`: the PUT assignment is swallowed by the inherited
`__proto__` setter, and the subsequent GET finds `__proto__` through the
prototype chain and hands `res.send` the prototype object instead of the
value `"active"`. -/
theorem c1_roundtrip_fails_at_proto :
    (KVR.get (KVR.put [] "__proto__" "active").1 "__proto__").2
      = Response.sendInherited "__proto__" ∧
    Response.sendInherited "__proto__" ≠ Response.ok (Body.text "active") := by
  exact ⟨rfl, by decide⟩

/-- Claim C2: on the empty store created at process start, `get("toString")`
does not take the 404 branch even though the key was never put, because
`"toString" in store` is true through the prototype chain; the response is
not the fixed NotFound response. -/
theorem c2_get_never_put_key_not_404 :
    KVR.get [] "toString" = ([], Response.sendInherited "toString") ∧
    Response.sendInherited "toString" ≠ notFoundResponse := by
  exact ⟨rfl, by decide⟩

/-- Claim C3: after `delete("toString")` on the empty store, `get("toString")`
still does not fail with NotFound: the delete removes no own property and
the GET handler finds the inherited `toString` through the prototype
chain. -/
theorem c3_delete_then_get_not_404 :
    (KVR.get (KVR.delete [] "toString").1 "toString").2
      = Response.sendInherited "toString" ∧
    Response.sendInherited "toString" ≠ notFoundResponse := by
  exact ⟨rfl, by decide⟩

/-- Claim C4: `put(k, v1); put(k, v2); get(k) = v2` fails on the code at the
key `__proto__`: both assignments are swallowed by the inherited
`__proto__` setter and the GET does not return `"v2"`. -/
theorem c4_overwrite_fails_at_proto :
    (KVR.get (KVR.put (KVR.put [] "__proto__" "v1").1 "__proto__" "v2").1
        "__proto__").2
      = Response.sendInherited "__proto__" ∧
    Response.sendInherited "__proto__" ≠ Response.ok (Body.text "v2") := by
  exact ⟨rfl, by decide⟩

/-- Claim C5: after `put("toString", "x"); delete_all()`, the call
`get("toString")` does not fail with NotFound although the key was put and
never individually deleted: `delete_all` does clear the own property, but
the GET handler then finds the inherited `toString` through the prototype
chain. -/
theorem c5_delete_all_then_get_not_404 :
    (KVR.get (KVR.delete_all (KVR.put [] "toString" "x").1).1 "toString").2
      = Response.sendInherited "toString" ∧
    Response.sendInherited "toString" ≠ notFoundResponse := by
  exact ⟨rfl, by decide⟩

/-- Claim C6: for every key and every store state, `delete(key)` succeeds
with a 200 response whose JSON body names the deleted key, whether or not
the key was present. -/
theorem c6_delete_always_acknowledges (s : Store) (k : String) :
    (KVR.delete s k).2 = Response.ok (Body.json [("deleted", k)]) := rfl

/-- Claim C7: `get` has no side effects: for every key and every store
state, the store after the call is the store before it, whichever branch
the handler takes. -/
theorem c7_get_has_no_side_effects (s : Store) (k : String) :
    (KVR.get s k).1 = s := by
  unfold KVR.get
  split
  · rfl
  · split <;> rfl

/-- Claim C8: `put(key, value)` always succeeds, for every key, value and
store state, and its response is a 200 whose body is exactly the value
from the request. -/
theorem c8_put_always_succeeds (s : Store) (k v : String) :
    (KVR.put s k v).2 = Response.ok (Body.text v) := rfl

/-- Claim C9: `put` and `delete` are local to their key: for all distinct
keys `k'` and `k` and every store state, the own binding of `k'` is the
same before and after a `put` or a `delete` on `k`. -/
theorem c9_put_delete_local (s : Store) (k k' v : String) (h : k' ≠ k) :
    lookupKey (KVR.put s k v).1 k' = lookupKey s k' ∧
    lookupKey (KVR.delete s k).1 k' = lookupKey s k' := by
  constructor
  · show lookupKey (setKey s k v) k' = lookupKey s k'
    unfold setKey
    split
    · rfl
    · exact lookupKey_setOwn_other s k k' v h
  · exact lookupKey_eraseKey_other s k k' h

/-- Witness for C9 at the store `[("b", "2")]`, put key `"a"`, other key
`"b"`. -/
theorem c9_put_delete_local_witness :
    ("b" : String) ≠ "a" ∧
    (lookupKey (KVR.put [("b", "2")] "a" "1").1 "b" = lookupKey [("b", "2")] "b" ∧
     lookupKey (KVR.delete [("b", "2")] "a").1 "b" = lookupKey [("b", "2")] "b") :=
  ⟨by decide, c9_put_delete_local [("b", "2")] "a" "b" "1" (by decide)⟩

/-- Claim C10, counterexample: with the environment variable PORT set to
the empty string, the JS `||` falls through to 3000, so the service does
not listen on the port value the variable carries. -/
theorem c10_port_empty_string_counterexample :
    port (some "") = PortVal.num 3000 ∧ PortVal.num 3000 ≠ PortVal.str "" := by
  exact ⟨rfl, by decide⟩

/-- Claim C10, amended: the service listens on the port named by PORT when
it is set to a nonempty string, and on 3000 when PORT is absent or set to
the empty string. -/
theorem c10_port_selection (s : String) (h : s ≠ "") :
    port (some s) = PortVal.str s ∧ port none = PortVal.num 3000 ∧
    port (some "") = PortVal.num 3000 := by
  refine ⟨?_, rfl, rfl⟩
  show (if s = "" then PortVal.num 3000 else PortVal.str s) = PortVal.str s
  rw [if_neg h]

/-- Witness for C10 at PORT set to the string 8080. -/
theorem c10_port_selection_witness :
    ("8080" : String) ≠ "" ∧
    (port (some "8080") = PortVal.str "8080" ∧ port none = PortVal.num 3000 ∧
     port (some "") = PortVal.num 3000) :=
  ⟨by decide, c10_port_selection "8080" (by decide)⟩
